import Mathlib

/-!
Shallow embedding of `pkg/filesystem/virtual/pool_backed_file_allocator.go`:
the mutable pool-backed virtual file (`fileBackedFile`) with its
reference-counting lifecycle, freeze/mutation protocol, digest caching and
the virtual I/O operation surface.

External collaborators (the storage pool's backing file, the digest
generator, the content-addressable store) are modelled as oracle
parameters: each operation that consults them takes the collaborator's
answer as an explicit argument. Fatal assertions in the Go source
(counter underflow checks, and method calls on the nil backing-file
handle after release) are modelled by the `Outcome.panicked` result.
-/

namespace PoolBackedFile

/-- Status codes returned by the virtual file operations. `ok`, `ioErr`,
`staleErr` correspond to `StatusOK`, `StatusErrIO` and `StatusErrStale`
in the source. -/
inductive VStatus where
  | ok
  | ioErr
  | staleErr
  deriving DecidableEq, Repr

/-- Result of an operation that can hit one of the fatal assertions of the
source: a Go `panic` on counter underflow, or a nil-pointer dereference of
the released backing-file handle. -/
inductive Outcome (α : Type) where
  | ok : α → Outcome α
  | panicked : Outcome α
  deriving DecidableEq, Repr

/-- A content digest: the identity of the digest function it was computed
with (`UsesDigestFunction` compares this) together with the digest value.
`digest.BadDigest` of the source is modelled as `none : Option Digest`. -/
structure Digest where
  fn : Nat
  val : Nat
  deriving DecidableEq, Repr

/-- `shareAccess ShareMask`: which access modes an open handle requested.
`count` corresponds to `ShareMask.Count()` (the number of set bits), and
`write` to `shareAccess and ShareMaskWrite being nonzero`. -/
structure ShareMask where
  read : Bool
  write : Bool
  deriving DecidableEq, Repr

/-- `ShareMask.Count()`: the weight a handle adds to the reference count. -/
def ShareMask.count (m : ShareMask) : Nat :=
  (if m.read then 1 else 0) + (if m.write then 1 else 0)

/-- The mutable state of a `fileBackedFile`. `fileOpen` records whether
`f.file` is still non-nil (the backing handle has not been closed), and
`closeCount` counts the calls to `f.file.Close()`, so that release-once
properties can be stated. All `uint`/`uint64` counters are modelled as
`Nat`; the one place the source can overflow a `uint64` sum
(`VirtualAllocate`, `VirtualWrite` end offsets) takes `% 2 ^ 64`
explicitly. -/
structure FileState where
  fileOpen : Bool
  closeCount : Nat
  isExecutable : Bool
  size : Nat
  referenceCount : Nat
  writableDescriptorsCount : Nat
  frozenDescriptorsCount : Nat
  cachedDigest : Option Digest
  changeID : Nat
  deriving DecidableEq, Repr

/-- `releaseReferencesLocked(count)`: panics when the reference count would
underflow; otherwise subtracts `count` and, on the transition to zero,
calls `f.file.Close()` and sets `f.file = nil`. If the handle was already
released (`f.file == nil`), the `f.file.Close()` call of the source would
dereference a nil interface, which is a Go panic. -/
def releaseReferencesLocked (count : Nat) (s : FileState) : Outcome FileState :=
  if s.referenceCount < count then .panicked
  else
    let rc := s.referenceCount - count
    if rc = 0 then
      if s.fileOpen then
        .ok { s with referenceCount := rc, fileOpen := false,
                     closeCount := s.closeCount + 1 }
      else .panicked
    else .ok { s with referenceCount := rc }

/-- `acquireFrozenDescriptor()`: under the lock, fails when
`referenceCount == 0`; otherwise increments `referenceCount` and
`frozenDescriptorsCount` and reports whether writable descriptors exist.
Returns `((hasWritableDescriptors, success), newState)`. -/
def acquireFrozenDescriptor (s : FileState) : (Bool × Bool) × FileState :=
  if s.referenceCount = 0 then ((false, false), s)
  else ((decide (0 < s.writableDescriptorsCount), true),
        { s with referenceCount := s.referenceCount + 1,
                 frozenDescriptorsCount := s.frozenDescriptorsCount + 1 })

/-- `releaseFrozenDescriptor()`: panics on an unheld frozen descriptor;
otherwise decrements `frozenDescriptorsCount` (closing and replacing the
`unfreezeWakeup` channel when it reaches zero, which wakes every waiter in
`lockMutatingData`) and releases one reference. -/
def releaseFrozenDescriptor (s : FileState) : Outcome FileState :=
  if s.frozenDescriptorsCount = 0 then .panicked
  else
    releaseReferencesLocked 1
      { s with frozenDescriptorsCount := s.frozenDescriptorsCount - 1 }

/-- `acquireShareAccessLocked(shareAccess)`: adds the share weight to the
reference count and tracks writable descriptors. -/
def acquireShareAccessLocked (m : ShareMask) (s : FileState) : FileState :=
  let s' := { s with referenceCount := s.referenceCount + m.count }
  if m.write then
    { s' with writableDescriptorsCount := s'.writableDescriptorsCount + 1 }
  else s'

/-- `NewFile(isExecutable, size, shareAccess)` on the success path of the
allocator: a fresh state with `referenceCount = 1` plus the share weight
of the initial open request. -/
def NewFile (isExecutable : Bool) (size : Nat) (shareAccess : ShareMask) : FileState :=
  acquireShareAccessLocked shareAccess
    { fileOpen := true, closeCount := 0, isExecutable := isExecutable,
      size := size, referenceCount := 1, writableDescriptorsCount := 0,
      frozenDescriptorsCount := 0, cachedDigest := none, changeID := 0 }

/-- `Link()`: stale when the reference count already reached zero,
otherwise one more reference. -/
def Link (s : FileState) : VStatus × FileState :=
  if s.referenceCount = 0 then (.staleErr, s)
  else (.ok, { s with referenceCount := s.referenceCount + 1 })

/-- `Unlink()`: releases the link's reference. -/
def Unlink (s : FileState) : Outcome FileState :=
  releaseReferencesLocked 1 s

/-- `VirtualClose(shareAccess)`: panics when a write-mode handle closes
while `writableDescriptorsCount == 0`; otherwise drops the writable
counter if the handle had write access and releases the share weight. -/
def VirtualClose (m : ShareMask) (s : FileState) : Outcome FileState :=
  if m.write then
    if s.writableDescriptorsCount = 0 then .panicked
    else
      releaseReferencesLocked m.count
        { s with writableDescriptorsCount := s.writableDescriptorsCount - 1 }
  else releaseReferencesLocked m.count s

/-- `lockMutatingData()`: acquire the exclusive lock; while
`frozenDescriptorsCount > 0`, drop the lock, wait on the wakeup channel
and reacquire. The trace argument is the sequence of states observed at
each successive lock acquisition (the environment may change the state
while the waiter is blocked); the function returns the state in which the
mutation is allowed to proceed, or `none` when the freeze count never
returns to zero within the trace. -/
def lockMutatingData : List FileState → Option FileState
  | [] => none
  | s :: rest =>
      if 0 < s.frozenDescriptorsCount then lockMutatingData rest else some s

/-- `virtualTruncate(size)`: forwards to `f.file.Truncate` (a nil handle
would be a Go panic; the backing result is the oracle `truncOk`); on
success invalidates the cached digest, sets the size and bumps the change
identifier. -/
def virtualTruncate (sz : Nat) (truncOk : Bool) (s : FileState) :
    Outcome (VStatus × FileState) :=
  if s.fileOpen then
    if truncOk then
      .ok (.ok, { s with cachedDigest := none, size := sz,
                         changeID := s.changeID + 1 })
    else .ok (.ioErr, s)
  else .panicked

/-- The `in *Attributes` argument of `VirtualSetAttributes`: an optional
size (`GetSizeBytes`) and, when permissions are present
(`GetPermissions`), whether they include `PermissionsExecute`. -/
structure SetAttrIn where
  sizeBytes : Option Nat
  permsExecute : Option Bool
  deriving DecidableEq, Repr

/-- The permissions half of `VirtualSetAttributes`: when permissions are
present, set the executable bit accordingly and bump the change
identifier (the cached digest is not touched). -/
def applyPermissions (attr : SetAttrIn) (s : FileState) : FileState :=
  match attr.permsExecute with
  | some ex => { s with isExecutable := ex, changeID := s.changeID + 1 }
  | none => s

/-- `VirtualSetAttributes(in)`: when a size is present, truncate first
(propagating its failure); then apply a permissions change if present. -/
def VirtualSetAttributes (attr : SetAttrIn) (truncOk : Bool) (s : FileState) :
    Outcome (VStatus × FileState) :=
  match attr.sizeBytes with
  | some sz =>
      match virtualTruncate sz truncOk s with
      | .panicked => .panicked
      | .ok (st, s1) =>
          if st = .ok then .ok (.ok, applyPermissions attr s1)
          else .ok (st, s1)
  | none => .ok (.ok, applyPermissions attr s)

/-- `VirtualWrite(buf, offset)`: forwards to `f.file.WriteAt` (oracle:
`nWritten` bytes written, `writeErr` whether it also reported an error; a
nil handle would be a Go panic). When any bytes were written the cached
digest is invalidated, the size is extended when the end offset
`offset + uint64(nWritten)` (a wrapping `uint64` sum) exceeds it, and the
change identifier is bumped; an error then still returns the byte count
together with `StatusErrIO`. -/
def VirtualWrite (offset nWritten : Nat) (writeErr : Bool) (s : FileState) :
    Outcome ((Nat × VStatus) × FileState) :=
  if s.fileOpen then
    let e := (offset + nWritten) % 2 ^ 64
    let s1 :=
      if 0 < nWritten then
        { s with cachedDigest := none,
                 size := if s.size < e then e else s.size,
                 changeID := s.changeID + 1 }
      else s
    .ok ((nWritten, if writeErr then .ioErr else .ok), s1)
  else .panicked

/-- `VirtualAllocate(off, size)`: computes the required end as the
wrapping `uint64` sum `off + size` and truncate-extends only when it
exceeds the current size; otherwise succeeds without touching the file. -/
def VirtualAllocate (off sz : Nat) (truncOk : Bool) (s : FileState) :
    Outcome (VStatus × FileState) :=
  let e := (off + sz) % 2 ^ 64
  if s.size < e then virtualTruncate e truncOk s
  else .ok (.ok, s)

/-- The `options *OpenExistingOptions` argument of `VirtualOpenSelf`:
only the `Truncate` field is consulted. -/
structure OpenExistingOptions where
  truncate : Bool
  deriving DecidableEq, Repr

/-- `VirtualOpenSelf(shareAccess, options)`: stale when the reference
count already reached zero; handles `O_TRUNC` via `virtualTruncate`,
then adds the share weight. -/
def VirtualOpenSelf (m : ShareMask) (opts : OpenExistingOptions)
    (truncOk : Bool) (s : FileState) : Outcome (VStatus × FileState) :=
  if s.referenceCount = 0 then .ok (.staleErr, s)
  else if opts.truncate then
    match virtualTruncate 0 truncOk s with
    | .panicked => .panicked
    | .ok (st, s1) =>
        if st = .ok then .ok (.ok, acquireShareAccessLocked m s1)
        else .ok (st, s1)
  else .ok (.ok, acquireShareAccessLocked m s)

/-- Modelled from the spec: `BoundReadToFileSize` lives elsewhere in this
repository (not under the supplied source tree). Per the spec, `Read`
"clips the requested range to `[0, size)`" and reports end-of-file when
the request reached at or past the end: it returns the clipped buffer
length together with the end-of-file flag. -/
def BoundReadToFileSize (bufLen off size : Nat) : Nat × Bool :=
  if size ≤ off then (0, true)
  else if size - off < bufLen then (size - off, true)
  else (bufLen, false)

/-- `VirtualRead(buf, off)`: clips the request to the file size and, when
the clipped buffer is non-empty, forwards to `f.file.ReadAt` (oracle:
`readN` bytes read; a nil handle would be a Go panic). A short read is
reported as `StatusErrIO`. There is no `referenceCount` check. -/
def VirtualRead (bufLen off readN : Nat) (s : FileState) :
    Outcome ((Nat × Bool × VStatus) × FileState) :=
  let (n, eof) := BoundReadToFileSize bufLen off s.size
  if 0 < n then
    if s.fileOpen then
      if readN ≠ n then .ok ((0, false, .ioErr), s)
      else .ok ((n, eof, .ok), s)
    else .panicked
  else .ok ((n, eof, .ok), s)

/-- `getCachedDigest()`. -/
def getCachedDigest (s : FileState) : Option Digest :=
  s.cachedDigest

/-- `updateCachedDigest(digestFunction)`: returns the cached digest when
it is present (`!= digest.BadDigest`) and was computed with the same
digest function; otherwise streams the file through a digest generator
(oracle: the generator produces value `computedVal` for function `fn`,
and `computeOk` is whether the backing read succeeded), caching the
result on success. The result is `(digest?, backingReadHappened, state)`,
with `none` standing for the `digest.BadDigest` error return. -/
def updateCachedDigest (fn computedVal : Nat) (computeOk : Bool)
    (s : FileState) : Option Digest × Bool × FileState :=
  match s.cachedDigest with
  | some d =>
      if d.fn = fn then (some d, false, s)
      else if computeOk then
        (some ⟨fn, computedVal⟩, true,
         { s with cachedDigest := some ⟨fn, computedVal⟩ })
      else (none, true, s)
  | none =>
      if computeOk then
        (some ⟨fn, computedVal⟩, true,
         { s with cachedDigest := some ⟨fn, computedVal⟩ })
      else (none, true, s)

/-- The error cases of `UploadFile`. -/
inductive UploadErr where
  | notFound
  | digestFailed
  | putFailed
  deriving DecidableEq, Repr

/-- `UploadFile(ctx, store, digestFunction)`: freeze the file (not-found
when acquisition fails), compute or fetch the digest (releasing the
frozen descriptor through `f.Close()` on failure), then hand the store a
validated buffer over `f`; the store consumes that buffer on both its
success and failure paths, closing `f` — which releases the frozen
descriptor — once the handed-off reader completes. The oracles are the
digest generator (`computedVal`, `computeOk`) and the store's `Put`
result (`putOk`). -/
def UploadFile (fn computedVal : Nat) (computeOk putOk : Bool)
    (s : FileState) : Outcome (Except UploadErr Digest × FileState) :=
  let a := acquireFrozenDescriptor s
  if a.1.2 = false then .ok (.error .notFound, a.2)
  else
    let u := updateCachedDigest fn computedVal computeOk a.2
    match u.1 with
    | none =>
        match releaseFrozenDescriptor u.2.2 with
        | .panicked => .panicked
        | .ok s3 => .ok (.error .digestFailed, s3)
    | some d =>
        match releaseFrozenDescriptor u.2.2 with
        | .panicked => .panicked
        | .ok s3 =>
            if putOk then .ok (.ok d, s3)
            else .ok (.error .putFailed, s3)

/-- Claim C6: `acquireFrozenDescriptor`, run under the lock, fails
(returns `success = false`) exactly when `referenceCount = 0`; otherwise
it increments both `referenceCount` and `frozenDescriptorsCount` by one
and returns whether `writableDescriptorsCount > 0`, leaving all other
fields unchanged. -/
theorem acquireFrozenDescriptor_spec (s : FileState) :
    (s.referenceCount = 0 → acquireFrozenDescriptor s = ((false, false), s)) ∧
    (s.referenceCount ≠ 0 →
      acquireFrozenDescriptor s =
        ((decide (0 < s.writableDescriptorsCount), true),
         { s with referenceCount := s.referenceCount + 1,
                  frozenDescriptorsCount := s.frozenDescriptorsCount + 1 })) := by
  constructor
  · intro h
    simp [acquireFrozenDescriptor, h]
  · intro h
    simp [acquireFrozenDescriptor, h]

/-- Witness for C6: `acquireFrozenDescriptor` evaluated on a dead state
and on a live state. -/
theorem acquireFrozenDescriptor_spec_witness :
    acquireFrozenDescriptor ⟨false, 1, false, 5, 0, 0, 0, none, 3⟩ =
      ((false, false), ⟨false, 1, false, 5, 0, 0, 0, none, 3⟩) ∧
    acquireFrozenDescriptor ⟨true, 0, false, 5, 2, 1, 0, none, 7⟩ =
      ((true, true), ⟨true, 0, false, 5, 3, 1, 1, none, 7⟩) :=
  ⟨(acquireFrozenDescriptor_spec ⟨false, 1, false, 5, 0, 0, 0, none, 3⟩).1 rfl,
   by
    have h := (acquireFrozenDescriptor_spec ⟨true, 0, false, 5, 2, 1, 0, none, 7⟩).2
      (by decide)
    simpa using h⟩

/-- Claim C8: counter underflow is fatal, never a returned error:
releasing more references than `referenceCount` holds, releasing a frozen
descriptor when `frozenDescriptorsCount = 0`, and closing a write-mode
handle when `writableDescriptorsCount = 0` each abort the program. -/
theorem counter_underflow_panics (s : FileState) (count : Nat) (m : ShareMask) :
    (s.referenceCount < count → releaseReferencesLocked count s = .panicked) ∧
    (s.frozenDescriptorsCount = 0 → releaseFrozenDescriptor s = .panicked) ∧
    (s.writableDescriptorsCount = 0 → m.write = true →
      VirtualClose m s = .panicked) := by
  refine ⟨fun h => ?_, fun h => ?_, fun h hw => ?_⟩
  · simp [releaseReferencesLocked, h]
  · simp [releaseFrozenDescriptor, h]
  · simp [VirtualClose, hw, h]

/-- Witness for C8: the three underflows evaluated on concrete states. -/
theorem counter_underflow_panics_witness :
    releaseReferencesLocked 2 ⟨true, 0, false, 5, 1, 0, 0, none, 7⟩ = .panicked ∧
    releaseFrozenDescriptor ⟨true, 0, false, 5, 1, 0, 0, none, 7⟩ = .panicked ∧
    VirtualClose ⟨false, true⟩ ⟨true, 0, false, 5, 1, 0, 0, none, 7⟩ = .panicked :=
  ⟨(counter_underflow_panics ⟨true, 0, false, 5, 1, 0, 0, none, 7⟩ 2
      ⟨false, true⟩).1 (by decide),
   (counter_underflow_panics ⟨true, 0, false, 5, 1, 0, 0, none, 7⟩ 2
      ⟨false, true⟩).2.1 rfl,
   (counter_underflow_panics ⟨true, 0, false, 5, 1, 0, 0, none, 7⟩ 2
      ⟨false, true⟩).2.2 rfl rfl⟩

/-- Claim C9: a `VirtualWrite` in which the backing write reports zero
bytes written and no error returns `(0, StatusOK)` and leaves the whole
state — in particular `size`, `changeID` and `cachedDigest` —
unchanged. -/
theorem virtualWrite_zero_noop (s : FileState) (off : Nat)
    (h : s.fileOpen = true) :
    VirtualWrite off 0 false s = .ok ((0, VStatus.ok), s) := by
  simp [VirtualWrite, h]

/-- Witness for C9: a zero-byte write on a concrete live state. -/
theorem virtualWrite_zero_noop_witness :
    VirtualWrite 9 0 false ⟨true, 0, false, 5, 2, 1, 0, some ⟨1, 42⟩, 7⟩ =
      .ok ((0, VStatus.ok), ⟨true, 0, false, 5, 2, 1, 0, some ⟨1, 42⟩, 7⟩) :=
  virtualWrite_zero_noop ⟨true, 0, false, 5, 2, 1, 0, some ⟨1, 42⟩, 7⟩ 9 rfl

/-- Claim C10: `VirtualAllocate` computes the required end as
`(off + size) % 2 ^ 64`; when the wrapped end does not exceed the current
file size it returns `StatusOK` without changing anything, and it
truncate-extends (invalidating the digest and bumping the change
identifier) exactly when the wrapped end strictly exceeds the size. -/
theorem virtualAllocate_wrapping (off sz : Nat) (truncOk : Bool)
    (s : FileState) :
    ((off + sz) % 2 ^ 64 ≤ s.size →
      VirtualAllocate off sz truncOk s = .ok (VStatus.ok, s)) ∧
    (s.size < (off + sz) % 2 ^ 64 → s.fileOpen = true →
      VirtualAllocate off sz true s =
        .ok (VStatus.ok,
          { s with cachedDigest := none, size := (off + sz) % 2 ^ 64,
                   changeID := s.changeID + 1 })) := by
  constructor
  · intro h
    simp only [VirtualAllocate]
    rw [if_neg (Nat.not_lt.mpr h)]
  · intro h hf
    simp only [VirtualAllocate]
    rw [if_pos h]
    simp [virtualTruncate, hf]

/-- Witness for C10: with `off = 2 ^ 64 - 1` and `size = 2` the wrapped
end is `1`, which does not exceed the current size `5`, so the call
succeeds without extending; and a non-wrapping call extends. -/
theorem virtualAllocate_wrapping_witness :
    VirtualAllocate (2 ^ 64 - 1) 2 true ⟨true, 0, false, 5, 2, 1, 0, none, 7⟩ =
      .ok (VStatus.ok, ⟨true, 0, false, 5, 2, 1, 0, none, 7⟩) ∧
    VirtualAllocate 6 4 true ⟨true, 0, false, 5, 2, 1, 0, none, 7⟩ =
      .ok (VStatus.ok, ⟨true, 0, false, 10, 2, 1, 0, none, 8⟩) :=
  ⟨(virtualAllocate_wrapping (2 ^ 64 - 1) 2 true
      ⟨true, 0, false, 5, 2, 1, 0, none, 7⟩).1 (by decide),
   by
    have h := (virtualAllocate_wrapping 6 4 true
      ⟨true, 0, false, 5, 2, 1, 0, none, 7⟩).2 (by decide) rfl
    simpa using h⟩

/-- Claim C4: for every `VirtualWrite` whose backing write reports
`n > 0` bytes written (with `offset + n` in `uint64` range), the cached
digest is invalidated, the size becomes `max (old size) (offset + n)`,
and `changeID` is bumped; when the backing write additionally reports an
error the size growth is still committed and the call returns `n`
together with `StatusErrIO`. -/
theorem virtualWrite_commits_partial (s : FileState) (off n : Nat)
    (writeErr : Bool) (hf : s.fileOpen = true) (hn : 0 < n)
    (hov : off + n < 2 ^ 64) :
    VirtualWrite off n writeErr s =
      .ok ((n, if writeErr then VStatus.ioErr else VStatus.ok),
        { s with cachedDigest := none, size := max s.size (off + n),
                 changeID := s.changeID + 1 }) := by
  simp only [VirtualWrite, hf, if_true, hn, if_pos, Nat.mod_eq_of_lt hov]
  rcases Nat.lt_or_ge s.size (off + n) with hlt | hge
  · rw [if_pos hlt, Nat.max_eq_right (Nat.le_of_lt hlt)]
  · rw [if_neg (Nat.not_lt.mpr hge), Nat.max_eq_left hge]

/-- Witness for C4: a 3-byte write at offset 2 on a 3-byte file, once
with and once without a reported backing error. -/
theorem virtualWrite_commits_partial_witness :
    VirtualWrite 2 3 true ⟨true, 0, false, 3, 2, 1, 0, some ⟨1, 42⟩, 7⟩ =
      .ok ((3, VStatus.ioErr), ⟨true, 0, false, 5, 2, 1, 0, none, 8⟩) ∧
    VirtualWrite 2 3 false ⟨true, 0, false, 3, 2, 1, 0, some ⟨1, 42⟩, 7⟩ =
      .ok ((3, VStatus.ok), ⟨true, 0, false, 5, 2, 1, 0, none, 8⟩) :=
  ⟨by
    have h := virtualWrite_commits_partial
      ⟨true, 0, false, 3, 2, 1, 0, some ⟨1, 42⟩, 7⟩ 2 3 true rfl (by decide)
      (by decide)
    simpa using h,
   by
    have h := virtualWrite_commits_partial
      ⟨true, 0, false, 3, 2, 1, 0, some ⟨1, 42⟩, 7⟩ 2 3 false rfl (by decide)
      (by decide)
    simpa using h⟩

/-- Claim C7: when `updateCachedDigest` succeeds, calling it again with
the same digest function on the resulting state (no mutation in between)
returns the identical digest, leaves the state unchanged, and performs no
backing read (the second call is a pure cache hit; only the first call
may read the file). -/
theorem updateCachedDigest_cache_hit (fn v v' : Nat) (ok' : Bool)
    (s : FileState) :
    ∃ (d : Digest) (didRead : Bool) (s1 : FileState),
      updateCachedDigest fn v true s = (some d, didRead, s1) ∧
      updateCachedDigest fn v' ok' s1 = (some d, false, s1) := by
  match h : s.cachedDigest with
  | some d =>
      by_cases hfn : d.fn = fn
      · exact ⟨d, false, s, by simp [updateCachedDigest, h, hfn],
          by simp [updateCachedDigest, h, hfn]⟩
      · refine ⟨⟨fn, v⟩, true, { s with cachedDigest := some ⟨fn, v⟩ },
          by simp [updateCachedDigest, h, hfn], ?_⟩
        simp [updateCachedDigest]
  | none =>
      refine ⟨⟨fn, v⟩, true, { s with cachedDigest := some ⟨fn, v⟩ },
        by simp [updateCachedDigest, h], ?_⟩
      simp [updateCachedDigest]

/-- Claim C2: freeze acquisition never waits — `acquireFrozenDescriptor`
is a single atomic step whose completion and success are independent of
the freeze/mutation protocol (it succeeds exactly when the file is still
referenced) — while a mutating operation entering `lockMutatingData`
proceeds only in a state in which every outstanding frozen descriptor has
been released: whatever interleaving of states the waiter observes at its
successive lock acquisitions, the state in which the mutation is allowed
to proceed has `frozenDescriptorsCount = 0`. -/
theorem freeze_nonblocking_mutation_waits (trace : List FileState)
    (s : FileState) :
    (lockMutatingData trace = some s → s.frozenDescriptorsCount = 0) ∧
    ((acquireFrozenDescriptor s).1.2 = decide (s.referenceCount ≠ 0)) := by
  constructor
  · induction trace with
    | nil => intro h; exact absurd h (by simp [lockMutatingData])
    | cons t rest ih =>
        intro h
        simp only [lockMutatingData] at h
        by_cases ht : 0 < t.frozenDescriptorsCount
        · exact ih (by rwa [if_pos ht] at h)
        · rw [if_neg ht] at h
          cases h
          exact Nat.eq_zero_of_not_pos ht
  · by_cases h : s.referenceCount = 0
    · simp [acquireFrozenDescriptor, h]
    · simp [acquireFrozenDescriptor, h]

/-- Witness for C2: a waiter that observes a frozen state and then an
unfrozen one proceeds in the unfrozen state, whose frozen-descriptor
count is zero; freeze acquisition on a mid-mutation live state succeeds. -/
theorem freeze_nonblocking_mutation_waits_witness :
    (⟨true, 0, false, 5, 2, 1, 0, none, 8⟩ : FileState).frozenDescriptorsCount
        = 0 ∧
    (acquireFrozenDescriptor ⟨true, 0, false, 5, 2, 1, 0, none, 8⟩).1.2 =
      decide ((⟨true, 0, false, 5, 2, 1, 0, none, 8⟩ : FileState).referenceCount
        ≠ 0) :=
  ⟨(freeze_nonblocking_mutation_waits
      [⟨true, 0, false, 5, 3, 1, 1, none, 7⟩, ⟨true, 0, false, 5, 2, 1, 0, none, 8⟩]
      ⟨true, 0, false, 5, 2, 1, 0, none, 8⟩).1 (by decide),
   (freeze_nonblocking_mutation_waits
      [⟨true, 0, false, 5, 3, 1, 1, none, 7⟩, ⟨true, 0, false, 5, 2, 1, 0, none, 8⟩]
      ⟨true, 0, false, 5, 2, 1, 0, none, 8⟩).2⟩

/-- Claim C5: `UploadFile` releases the frozen reference it acquired on
every exit path — not-found at acquisition, digest-computation failure,
store `Put` failure, or success — so once the call and its handed-off
reader complete, the net effect on `frozenDescriptorsCount` and on the
extra reference taken by the freeze is zero (and the call never trips a
fatal assertion or closes the backing handle itself). -/
theorem uploadFile_frozen_balanced (fn v : Nat) (computeOk putOk : Bool)
    (s : FileState) :
    ∃ (res : Except UploadErr Digest) (s' : FileState),
      UploadFile fn v computeOk putOk s = .ok (res, s') ∧
      s'.frozenDescriptorsCount = s.frozenDescriptorsCount ∧
      s'.referenceCount = s.referenceCount ∧
      s'.closeCount = s.closeCount ∧
      s'.fileOpen = s.fileOpen := by
  obtain ⟨fo, cc, ex, sz, rc, wd, fz, cd, ci⟩ := s
  by_cases hrc : rc = 0
  · subst hrc
    exact ⟨.error .notFound, _,
      by simp [UploadFile, acquireFrozenDescriptor], rfl, rfl, rfl, rfl⟩
  · have hlt : ¬ rc + 1 < 1 := by omega
    match cd with
    | some d =>
        by_cases hfn : d.fn = fn
        · cases putOk
          · exact ⟨.error .putFailed, ⟨fo, cc, ex, sz, rc, wd, fz, some d, ci⟩,
              by simp [UploadFile, acquireFrozenDescriptor, hrc,
                updateCachedDigest, hfn, releaseFrozenDescriptor,
                releaseReferencesLocked, hlt],
              rfl, rfl, rfl, rfl⟩
          · exact ⟨.ok d, ⟨fo, cc, ex, sz, rc, wd, fz, some d, ci⟩,
              by simp [UploadFile, acquireFrozenDescriptor, hrc,
                updateCachedDigest, hfn, releaseFrozenDescriptor,
                releaseReferencesLocked, hlt],
              rfl, rfl, rfl, rfl⟩
        · cases computeOk
          · exact ⟨.error .digestFailed,
              ⟨fo, cc, ex, sz, rc, wd, fz, some d, ci⟩,
              by simp [UploadFile, acquireFrozenDescriptor, hrc,
                updateCachedDigest, hfn, releaseFrozenDescriptor,
                releaseReferencesLocked, hlt],
              rfl, rfl, rfl, rfl⟩
          · cases putOk
            · exact ⟨.error .putFailed,
                ⟨fo, cc, ex, sz, rc, wd, fz, some ⟨fn, v⟩, ci⟩,
                by simp [UploadFile, acquireFrozenDescriptor, hrc,
                  updateCachedDigest, hfn, releaseFrozenDescriptor,
                  releaseReferencesLocked, hlt],
                rfl, rfl, rfl, rfl⟩
            · exact ⟨.ok ⟨fn, v⟩,
                ⟨fo, cc, ex, sz, rc, wd, fz, some ⟨fn, v⟩, ci⟩,
                by simp [UploadFile, acquireFrozenDescriptor, hrc,
                  updateCachedDigest, hfn, releaseFrozenDescriptor,
                  releaseReferencesLocked, hlt],
                rfl, rfl, rfl, rfl⟩
    | none =>
        cases computeOk
        · exact ⟨.error .digestFailed, ⟨fo, cc, ex, sz, rc, wd, fz, none, ci⟩,
            by simp [UploadFile, acquireFrozenDescriptor, hrc,
              updateCachedDigest, releaseFrozenDescriptor,
              releaseReferencesLocked, hlt],
            rfl, rfl, rfl, rfl⟩
        · cases putOk
          · exact ⟨.error .putFailed,
              ⟨fo, cc, ex, sz, rc, wd, fz, some ⟨fn, v⟩, ci⟩,
              by simp [UploadFile, acquireFrozenDescriptor, hrc,
                updateCachedDigest, releaseFrozenDescriptor,
                releaseReferencesLocked, hlt],
              rfl, rfl, rfl, rfl⟩
          · exact ⟨.ok ⟨fn, v⟩, ⟨fo, cc, ex, sz, rc, wd, fz, some ⟨fn, v⟩, ci⟩,
              by simp [UploadFile, acquireFrozenDescriptor, hrc,
                updateCachedDigest, releaseFrozenDescriptor,
                releaseReferencesLocked, hlt],
              rfl, rfl, rfl, rfl⟩

/-- Counterexample to claim C1 as stated: on a file whose
`referenceCount` has reached zero (backing handle released),
`VirtualRead` does not fail with the stale status — a read at or past
end-of-file clips to zero bytes and succeeds with `StatusOK`, because
`VirtualRead` performs no `referenceCount` check. -/
theorem virtualRead_after_release_counterexample :
    (⟨false, 1, false, 5, 0, 0, 0, none, 3⟩ : FileState).referenceCount = 0 ∧
    VirtualRead 4 5 0 ⟨false, 1, false, 5, 0, 0, 0, none, 3⟩ =
      .ok ((0, true, VStatus.ok), ⟨false, 1, false, 5, 0, 0, 0, none, 3⟩) ∧
    VStatus.ok ≠ VStatus.staleErr :=
  ⟨rfl, rfl, by decide⟩

/-- Claim C1 (amended): when `referenceCount` is decremented to zero the
backing handle is released exactly once — the zero transition closes it,
a release on an already-released file never closes it a second time (it
either leaves the close count unchanged or is a fatal underflow /
nil-handle panic) — and the operations that check liveness, `Link` and
`VirtualOpenSelf`, fail with the stale status afterwards. `VirtualRead`
performs no such check: a read on a released file either succeeds with
zero bytes or dereferences the released handle. -/
theorem lifecycle_release_once_and_stale (s s' : FileState) (count : Nat)
    (m : ShareMask) (opts : OpenExistingOptions) (truncOk : Bool) :
    (releaseReferencesLocked count s = .ok s' → s'.referenceCount = 0 →
      s'.fileOpen = false ∧ s'.closeCount = s.closeCount + 1) ∧
    (releaseReferencesLocked count s = .ok s' → s'.referenceCount ≠ 0 →
      s'.fileOpen = s.fileOpen ∧ s'.closeCount = s.closeCount) ∧
    (s.fileOpen = false → releaseReferencesLocked count s = .ok s' →
      s'.closeCount = s.closeCount) ∧
    (s.referenceCount = 0 → 1 ≤ count →
      releaseReferencesLocked count s = .panicked) ∧
    (s.referenceCount = 0 → Link s = (VStatus.staleErr, s)) ∧
    (s.referenceCount = 0 →
      VirtualOpenSelf m opts truncOk s = .ok (VStatus.staleErr, s)) := by
  refine ⟨?_, ?_, ?_, ?_, ?_, ?_⟩
  · intro h h0
    simp only [releaseReferencesLocked] at h
    split at h
    · exact Outcome.noConfusion h
    · split at h
      · split at h
        · cases h; exact ⟨rfl, rfl⟩
        · exact Outcome.noConfusion h
      · rename_i h2
        cases h
        simp only [FileState.referenceCount] at h0
        exact absurd h0 h2
  · intro h h0
    simp only [releaseReferencesLocked] at h
    split at h
    · exact Outcome.noConfusion h
    · split at h
      · split at h
        · cases h
          simp only [FileState.referenceCount] at h0
          rename_i h2 _
          exact absurd h2 h0
        · exact Outcome.noConfusion h
      · cases h; exact ⟨rfl, rfl⟩
  · intro hfo h
    simp only [releaseReferencesLocked] at h
    split at h
    · exact Outcome.noConfusion h
    · split at h
      · rw [hfo] at h
        simp only [Bool.false_eq_true, if_false] at h
        exact Outcome.noConfusion h
      · cases h; rfl
  · intro h0 hc
    simp only [releaseReferencesLocked]
    rw [if_pos (by omega)]
  · intro h0
    simp [Link, h0]
  · intro h0
    simp [VirtualOpenSelf, h0]

/-- Witness for C1 (amended): the release, double-release, `Link` and
`VirtualOpenSelf` behaviour evaluated on concrete states. -/
theorem lifecycle_release_once_and_stale_witness :
    ((⟨false, 1, false, 5, 0, 0, 0, none, 3⟩ : FileState).fileOpen = false ∧
      (⟨false, 1, false, 5, 0, 0, 0, none, 3⟩ : FileState).closeCount = 0 + 1) ∧
    ((⟨true, 0, false, 5, 1, 0, 0, none, 3⟩ : FileState).fileOpen =
        (⟨true, 0, false, 5, 2, 0, 0, none, 3⟩ : FileState).fileOpen ∧
      (⟨true, 0, false, 5, 1, 0, 0, none, 3⟩ : FileState).closeCount =
        (⟨true, 0, false, 5, 2, 0, 0, none, 3⟩ : FileState).closeCount) ∧
    ((⟨false, 1, false, 5, 1, 0, 0, none, 3⟩ : FileState).closeCount =
      (⟨false, 1, false, 5, 2, 0, 0, none, 3⟩ : FileState).closeCount) ∧
    releaseReferencesLocked 1 ⟨false, 1, false, 5, 0, 0, 0, none, 3⟩ =
      .panicked ∧
    Link ⟨false, 1, false, 5, 0, 0, 0, none, 3⟩ =
      (VStatus.staleErr, ⟨false, 1, false, 5, 0, 0, 0, none, 3⟩) ∧
    VirtualOpenSelf ⟨true, false⟩ ⟨false⟩ true
        ⟨false, 1, false, 5, 0, 0, 0, none, 3⟩ =
      .ok (VStatus.staleErr, ⟨false, 1, false, 5, 0, 0, 0, none, 3⟩) :=
  ⟨(lifecycle_release_once_and_stale ⟨true, 0, false, 5, 1, 0, 0, none, 3⟩
      ⟨false, 1, false, 5, 0, 0, 0, none, 3⟩ 1 ⟨true, false⟩ ⟨false⟩ true).1
      (by decide) rfl,
   (lifecycle_release_once_and_stale ⟨true, 0, false, 5, 2, 0, 0, none, 3⟩
      ⟨true, 0, false, 5, 1, 0, 0, none, 3⟩ 1 ⟨true, false⟩ ⟨false⟩ true).2.1
      (by decide) (by decide),
   (lifecycle_release_once_and_stale ⟨false, 1, false, 5, 2, 0, 0, none, 3⟩
      ⟨false, 1, false, 5, 1, 0, 0, none, 3⟩ 1 ⟨true, false⟩ ⟨false⟩ true).2.2.1
      rfl (by decide),
   (lifecycle_release_once_and_stale ⟨false, 1, false, 5, 0, 0, 0, none, 3⟩
      ⟨false, 1, false, 5, 0, 0, 0, none, 3⟩ 1 ⟨true, false⟩ ⟨false⟩ true).2.2.2.1
      rfl (by decide),
   (lifecycle_release_once_and_stale ⟨false, 1, false, 5, 0, 0, 0, none, 3⟩
      ⟨false, 1, false, 5, 0, 0, 0, none, 3⟩ 1 ⟨true, false⟩ ⟨false⟩ true).2.2.2.2.1
      rfl,
   (lifecycle_release_once_and_stale ⟨false, 1, false, 5, 0, 0, 0, none, 3⟩
      ⟨false, 1, false, 5, 0, 0, 0, none, 3⟩ 1 ⟨true, false⟩ ⟨false⟩ true).2.2.2.2.2
      rfl⟩

/-- Counterexample to claim C3 as stated: an executable-bit change via
`VirtualSetAttributes` bumps `changeID` but does not reset `cachedDigest`
to the absent value — the previously cached digest survives. -/
theorem setAttributes_exec_keeps_digest_counterexample :
    VirtualSetAttributes ⟨none, some true⟩ true
        ⟨true, 0, false, 5, 2, 0, 0, some ⟨1, 42⟩, 7⟩ =
      .ok (VStatus.ok, ⟨true, 0, true, 5, 2, 0, 0, some ⟨1, 42⟩, 8⟩) ∧
    (⟨true, 0, true, 5, 2, 0, 0, some ⟨1, 42⟩, 8⟩ : FileState).cachedDigest ≠
      none :=
  ⟨rfl, by decide⟩

/-- Claim C3 (amended): a `VirtualWrite` that writes more than zero bytes
and a successful truncate (the path shared by `VirtualSetAttributes` with
a size, `VirtualOpenSelf` with `O_TRUNC`, and a `VirtualAllocate` extend)
strictly increase `changeID` and reset `cachedDigest` to the absent
value; an executable-bit change via `VirtualSetAttributes` strictly
increases `changeID` but leaves `cachedDigest` unchanged. -/
theorem mutation_changeID_digest (s : FileState) (off n : Nat)
    (writeErr : Bool) (sz : Nat) (ex : Bool) :
    (s.fileOpen = true → 0 < n →
      ∃ r s1, VirtualWrite off n writeErr s = .ok (r, s1) ∧
        s1.changeID = s.changeID + 1 ∧ s1.cachedDigest = none) ∧
    (s.fileOpen = true →
      virtualTruncate sz true s =
        .ok (VStatus.ok,
          { s with cachedDigest := none, size := sz,
                   changeID := s.changeID + 1 })) ∧
    (VirtualSetAttributes ⟨none, some ex⟩ true s =
      .ok (VStatus.ok,
        { s with isExecutable := ex, changeID := s.changeID + 1 })) := by
  refine ⟨fun hf hn => ?_, fun hf => ?_, ?_⟩
  · refine ⟨(n, if writeErr then VStatus.ioErr else VStatus.ok),
      { s with cachedDigest := none,
               size := if s.size < (off + n) % 2 ^ 64 then (off + n) % 2 ^ 64
                       else s.size,
               changeID := s.changeID + 1 }, ?_, rfl, rfl⟩
    simp [VirtualWrite, hf, hn]
  · simp [virtualTruncate, hf]
  · simp [VirtualSetAttributes, applyPermissions]

/-- Witness for C3 (amended): a 3-byte write, a truncate and an
executable-bit change on a concrete state carrying a cached digest. -/
theorem mutation_changeID_digest_witness :
    (∃ r s1,
      VirtualWrite 0 3 false ⟨true, 0, false, 5, 2, 0, 0, some ⟨1, 42⟩, 7⟩ =
          .ok (r, s1) ∧
        s1.changeID =
          (⟨true, 0, false, 5, 2, 0, 0, some ⟨1, 42⟩, 7⟩ : FileState).changeID
            + 1 ∧
        s1.cachedDigest = none) ∧
    virtualTruncate 10 true ⟨true, 0, false, 5, 2, 0, 0, some ⟨1, 42⟩, 7⟩ =
      .ok (VStatus.ok, ⟨true, 0, false, 10, 2, 0, 0, none, 8⟩) ∧
    VirtualSetAttributes ⟨none, some true⟩ true
        ⟨true, 0, false, 5, 2, 0, 0, some ⟨1, 42⟩, 7⟩ =
      .ok (VStatus.ok, ⟨true, 0, true, 5, 2, 0, 0, some ⟨1, 42⟩, 8⟩) :=
  ⟨(mutation_changeID_digest ⟨true, 0, false, 5, 2, 0, 0, some ⟨1, 42⟩, 7⟩
      0 3 false 10 true).1 rfl (by decide),
   by
    have h := (mutation_changeID_digest
      ⟨true, 0, false, 5, 2, 0, 0, some ⟨1, 42⟩, 7⟩ 0 3 false 10 true).2.1 rfl
    simpa using h,
   by
    have h := (mutation_changeID_digest
      ⟨true, 0, false, 5, 2, 0, 0, some ⟨1, 42⟩, 7⟩ 0 3 false 10 true).2.2
    simpa using h⟩

end PoolBackedFile
